import Mathlib

/-!
Shallow embedding of the deed validation and normalization pipeline
(src/app.py) together with theorems checking the specification's claims.

Conventions of the embedding:
* Python exceptions become an explicit error type `DeedError`; each
  validator returns `Except DeedError _`.
* Python floats are modelled by exact rationals; where a claim is about
  IEEE binary64 rounding itself, an explicit round-to-nearest-even model
  is used (see `fp64Hundredth` and friends).
* Third-party library calls are modelled by Lean functions faithful to the
  library behaviour on the relevant inputs:
  - `dateutil.parser.parse` is modelled on zero-padded ISO dates
    `YYYY-MM-DD`, optionally followed by a `HH:MM` time (the library
    accepts many more formats; unmodelled formats map to `none`).
    Absent time components default to midnight, as in dateutil.
  - `rapidfuzz.process.extractOne` is modelled over an abstract scorer
    parameter (the library default is WRatio); it returns the first
    best-scoring choice and `none` on an empty choice list.
-/

/-- A calendar date, as in Python's `datetime.date`. -/
structure Date where
  year : Nat
  month : Nat
  day : Nat
deriving DecidableEq, Repr

/-- A date with a time of day, as in Python's `datetime.datetime`
(seconds and finer are irrelevant to every modelled input and omitted). -/
structure DateTime where
  date : Date
  hour : Nat
  minute : Nat
deriving DecidableEq, Repr

/-- Lexicographic strict order on calendar dates, as Python compares
`datetime.date` values. -/
def Date.ltB (a b : Date) : Bool :=
  a.year < b.year ||
    (a.year = b.year && (a.month < b.month ||
      (a.month = b.month && a.day < b.day)))

/-- Lexicographic strict order on datetimes, as Python compares
`datetime.datetime` values: date first, then time of day. -/
def DateTime.ltB (a b : DateTime) : Bool :=
  Date.ltB a.date b.date ||
    (a.date = b.date && (a.hour < b.hour ||
      (a.hour = b.hour && a.minute < b.minute)))

/-- Whether a year is a leap year (Gregorian rule, as `datetime` uses). -/
def isLeapYear (y : Nat) : Bool :=
  (y % 4 = 0 && y % 100 ≠ 0) || y % 400 = 0

/-- Number of days in a month, as validated by `datetime.date`. -/
def daysInMonth (y m : Nat) : Nat :=
  if m = 2 then (if isLeapYear y then 29 else 28)
  else if m = 4 || m = 6 || m = 9 || m = 11 then 30
  else 31

/-- Numeric value of an ASCII digit character. -/
def digitVal (c : Char) : Nat := c.toNat - 48

/-- Build a calendar date from the eight digit characters of a
zero-padded ISO `YYYY-MM-DD` string, validating ranges exactly as the
`datetime.date` constructor does (dateutil rejects e.g. month 13 or
Feb 30 with a parse error). -/
def parseYMD (y1 y2 y3 y4 m1 m2 d1 d2 : Char) : Option Date :=
  if y1.isDigit && y2.isDigit && y3.isDigit && y4.isDigit &&
      m1.isDigit && m2.isDigit && d1.isDigit && d2.isDigit then
    let y := ((digitVal y1 * 10 + digitVal y2) * 10 + digitVal y3) * 10 + digitVal y4
    let m := digitVal m1 * 10 + digitVal m2
    let d := digitVal d1 * 10 + digitVal d2
    if 1 ≤ y && 1 ≤ m && m ≤ 12 && 1 ≤ d && d ≤ daysInMonth y m then
      some ⟨y, m, d⟩
    else none
  else none

/-- Model of `dateutil.parser.parse` restricted to zero-padded ISO dates
with an optional `HH:MM` time; a missing time defaults to midnight, as in
dateutil. On this fragment the model agrees with the library. `none`
only marks strings outside the modelled fragment: dateutil itself also
parses many further textual formats, so conclusions about the program's
parse failures are drawn either through the parser-generic form of the
validator (`validate_dates_with`) or at concrete strings dateutil
genuinely rejects with a `ParserError`, such as strings containing no
date token at all. -/
def parseDateTime (s : String) : Option DateTime :=
  match s.data with
  | [y1, y2, y3, y4, h1, m1, m2, h2, d1, d2] =>
    if h1 = '-' && h2 = '-' then
      (parseYMD y1 y2 y3 y4 m1 m2 d1 d2).map (fun d => ⟨d, 0, 0⟩)
    else none
  | [y1, y2, y3, y4, h1, m1, m2, h2, d1, d2, sp, t1, t2, co, n1, n2] =>
    if h1 = '-' && h2 = '-' && sp = ' ' && co = ':' &&
        t1.isDigit && t2.isDigit && n1.isDigit && n2.isDigit then
      let hr := digitVal t1 * 10 + digitVal t2
      let mi := digitVal n1 * 10 + digitVal n2
      if hr ≤ 23 && mi ≤ 59 then
        (parseYMD y1 y2 y3 y4 m1 m2 d1 d2).map (fun d => ⟨d, hr, mi⟩)
      else none
    else none
  | _ => none

/-- Errors of the pipeline. Python raises `ValueError` with a message in
every validator; the constructors record which site raised and the
diagnostic payload embedded in the message. `pythonTypeMismatch` models
the `TypeError` raised when `normalize_county` unpacks the `None` that
`process.extractOne` returns on an empty choice list. -/
inductive DeedError where
  | dateParse : DeedError
  | dateOrder (signed recorded : Date) : DeedError
  | malformedAmount (raw : String) : DeedError
  | moneyMismatch (numeric : ℚ) (text : Nat) : DeedError
  | unknownCounty (input : String) : DeedError
  | pythonTypeMismatch : DeedError
deriving DecidableEq, Repr

/-- Embedding of `validate_dates` (src/app.py:111) abstracted over the
date parser it calls (the parser is a library collaborator, exactly as
the fuzzy scorer is for the resolver): parse both strings, propagate a
parse failure of either one, and otherwise raise when the recorded
datetime is strictly before the signed datetime; the error message
carries the two calendar dates (`recorded.date()`, `signed.date()`). -/
def validate_dates_with (parse : String → Option DateTime)
    (date_signed date_recorded : String) : Except DeedError Unit :=
  match parse date_signed, parse date_recorded with
  | some signed, some recorded =>
    if DateTime.ltB recorded signed then
      .error (.dateOrder signed.date recorded.date)
    else .ok ()
  | _, _ => .error .dateParse

/-- Embedding of `validate_dates` (src/app.py:111): the validator with
the dateutil parser model plugged in. -/
def validate_dates (date_signed date_recorded : String) : Except DeedError Unit :=
  validate_dates_with parseDateTime date_signed date_recorded

/-- Characters kept by the regex substitution in src/app.py:123,
re.sub of the class of non-digit non-dot characters by the empty string
(ASCII digits; the modelled inputs contain no other Unicode digits). -/
def stripNonNumeric (s : String) : List Char :=
  s.data.filter (fun c => c.isDigit || c = '.')

/-- Value of a list of ASCII digit characters read in base 10. -/
def digitsVal (cs : List Char) : Nat :=
  cs.foldl (fun a c => 10 * a + digitVal c) 0

/-- Python `float` applied to a string of digits and dots: it succeeds
exactly when there is at least one digit and at most one dot, reading the
digits before the dot as the integer part and those after as the
fraction. The value is modelled exactly, as a rational. -/
def parseDecimal (cs : List Char) : Option ℚ :=
  if cs.any (fun c => c.isDigit) then
    match cs.splitOn '.' with
    | [intPart] => some (digitsVal intPart)
    | [intPart, fracPart] =>
      some ((digitsVal intPart : ℚ) + (digitsVal fracPart : ℚ) / 10 ^ fracPart.length)
    | _ => none
  else none

/-- The expression `float(re.sub(r"[^\d.]", "", x))` shared by
`validate_money` (src/app.py:123) and `calculate_tax` (src/app.py:136). -/
def parse_numeric (s : String) : Option ℚ :=
  parseDecimal (stripNonNumeric s)

/-- Substring test on character lists, as Python's `in` on strings. -/
def hasSubstr (p : List Char) : List Char → Bool
  | [] => p.isEmpty
  | c :: cs => p.isPrefixOf (c :: cs) || hasSubstr p cs

/-- ASCII lower-casing of one character, as Python's `str.lower` acts on
the ASCII range (all modelled inputs are ASCII). -/
def lowerChar (c : Char) : Char :=
  if 65 ≤ c.toNat ∧ c.toNat ≤ 90 then Char.ofNat (c.toNat + 32) else c

/-- ASCII lower-casing of a string, modelling Python's `str.lower`. -/
def strLower (s : String) : String :=
  String.mk (s.data.map lowerChar)

/-- Embedding of `text_amount_to_number` (src/app.py:89): lowercase the
input, then add 1,000,000 if the phrase "one million" occurs and 200,000
if the phrase "two hundred thousand" occurs. -/
def text_amount_to_number (text_amount : String) : Nat :=
  let t := strLower text_amount
  let total := 0
  let total := if hasSubstr "one million".data t.data then total + 1000000 else total
  let total := if hasSubstr "two hundred thousand".data t.data then total + 200000 else total
  total

/-- Embedding of `validate_money` (src/app.py:122): parse the numeric
field, convert the written field, and raise when they differ by more
than one currency unit. A numeric field Python's `float` rejects raises
before the comparison (the spec's MalformedAmountError). -/
def validate_money (amount_numeric amount_text : String) : Except DeedError Unit :=
  match parse_numeric amount_numeric with
  | none => .error (.malformedAmount amount_numeric)
  | some numeric_value =>
    let text_value := text_amount_to_number amount_text
    if 1 < |numeric_value - (text_value : ℚ)| then
      .error (.moneyMismatch numeric_value text_value)
    else .ok ()

/-- Embedding of `calculate_tax` (src/app.py:135): re-parse the numeric
amount field and multiply by the tax rate. The written-text amount is
not an input at all. -/
def calculate_tax (amount_numeric : String) (tax_rate : ℚ) : Option ℚ :=
  (parse_numeric amount_numeric).map (fun v => v * tax_rate)

/-- A registry entry, a record of counties.json with fields name and
tax_rate (src/app.py:77 and src/app.py:154). -/
structure CountyRecord where
  name : String
  tax_rate : ℚ
deriving DecidableEq, Repr

/-- A fuzzy similarity scorer, the shape of rapidfuzz scorers on the
0 to 100 integer scale. The library default used at src/app.py:78 is
WRatio; the code never fixes a scorer explicitly, so the model keeps it
as a parameter constrained by hypotheses where a claim needs them. -/
def Scorer : Type := String → String → Nat

/-- Scan of the remaining choices keeping the best seen so far,
replacing it only on a strictly greater score, as rapidfuzz
process.extractOne keeps the first of equally scored choices. -/
def extractOneAux (scorer : Scorer) (query : String) :
    String × Nat → List String → String × Nat
  | best, [] => best
  | best, n :: ns =>
    extractOneAux scorer query
      (if best.2 < scorer query n then (n, scorer query n) else best) ns

/-- Model of rapidfuzz process.extractOne with default score cutoff:
none on an empty choice list, otherwise the first best-scoring choice
with its score (the index of the returned triple is unused by the
code). -/
def extractOne (scorer : Scorer) (query : String) :
    List String → Option (String × Nat)
  | [] => none
  | n :: ns => some (extractOneAux scorer query (n, scorer query n) ns)

/-- Embedding of `normalize_county` (src/app.py:76): collect the names,
take the best fuzzy match, reject below score 70. Unpacking the `None`
returned on an empty registry raises a TypeError in Python, modelled by
`pythonTypeMismatch`. -/
def normalize_county (scorer : Scorer) (input_county : String)
    (counties : List CountyRecord) : Except DeedError String :=
  match extractOne scorer input_county (counties.map CountyRecord.name) with
  | none => .error .pythonTypeMismatch
  | some (best_match, score) =>
    if score < 70 then .error (.unknownCounty input_county)
    else .ok best_match

/-- The best similarity score a query reaches over a list of names
(zero over an empty list). -/
def bestScore (scorer : Scorer) (query : String) (names : List String) : Nat :=
  (names.map (scorer query)).foldr max 0

/-- Folding max from a larger seed commutes with taking max outside. -/
lemma foldr_max_max (l : List Nat) (a i : Nat) :
    l.foldr max (max a i) = max a (l.foldr max i) := by
  induction l with
  | nil => rfl
  | cons x l ih =>
    simp only [List.foldr_cons, ih, Nat.max_left_comm]

/-- The scan keeps a pair whose score is the max of the seed's score and
every scanned score, and which is either the seed or a scanned choice
scored by the scorer. -/
lemma extractOneAux_spec (scorer : Scorer) (query : String) :
    ∀ (ns : List String) (b : String × Nat), b.2 = scorer query b.1 →
      (extractOneAux scorer query b ns).2 =
        (ns.map (scorer query)).foldr max b.2 ∧
      ((extractOneAux scorer query b ns).1 = b.1 ∨
        (extractOneAux scorer query b ns).1 ∈ ns) ∧
      (extractOneAux scorer query b ns).2 =
        scorer query (extractOneAux scorer query b ns).1 := by
  intro ns
  induction ns with
  | nil => intro b hb; exact ⟨rfl, Or.inl rfl, hb⟩
  | cons n ns ih =>
    intro b hb
    rw [extractOneAux]
    by_cases h : b.2 < scorer query n
    · rw [if_pos h]
      obtain ⟨h1, h2, h3⟩ := ih (n, scorer query n) rfl
      refine ⟨?_, ?_, h3⟩
      · rw [h1]
        simp only [List.map_cons, List.foldr_cons]
        rw [← foldr_max_max, Nat.max_eq_left (Nat.le_of_lt h)]
      · rcases h2 with h2 | h2
        · exact Or.inr (by simp [h2])
        · exact Or.inr (List.mem_cons_of_mem _ h2)
    · rw [if_neg h]
      obtain ⟨h1, h2, h3⟩ := ih b hb
      refine ⟨?_, ?_, h3⟩
      · rw [h1]
        simp only [List.map_cons, List.foldr_cons]
        rw [← foldr_max_max, Nat.max_eq_right (Nat.le_of_not_lt h)]
      · rcases h2 with h2 | h2
        · exact Or.inl h2
        · exact Or.inr (List.mem_cons_of_mem _ h2)

/-- On a non-empty list of names, extractOne returns a member of the
list, scored by the scorer, whose score is the best score over the
list. -/
lemma extractOne_spec (scorer : Scorer) (query : String) (n : String)
    (ns : List String) :
    ∃ bm, extractOne scorer query (n :: ns) =
        some (bm, bestScore scorer query (n :: ns)) ∧
      bm ∈ n :: ns ∧ scorer query bm = bestScore scorer query (n :: ns) := by
  obtain ⟨h1, h2, h3⟩ :=
    extractOneAux_spec scorer query ns (n, scorer query n) rfl
  have hkey : bestScore scorer query (n :: ns) =
      (extractOneAux scorer query (n, scorer query n) ns).2 := by
    rw [h1, bestScore]
    simp only [List.map_cons, List.foldr_cons]
    rw [← foldr_max_max, Nat.max_zero]
  refine ⟨(extractOneAux scorer query (n, scorer query n) ns).1, ?_, ?_, ?_⟩
  · rw [extractOne, hkey]
  · rcases h2 with h2 | h2
    · exact h2 ▸ List.mem_cons_self n ns
    · exact List.mem_cons_of_mem _ h2
  · rw [hkey]
    exact h3.symm

/-- Every scored name bounds the best score from below. -/
lemma le_bestScore (scorer : Scorer) (query : String) (names : List String)
    (n : String) (hn : n ∈ names) :
    scorer query n ≤ bestScore scorer query names := by
  induction names with
  | nil => cases hn
  | cons m ms ih =>
    rw [bestScore]
    simp only [List.map_cons, List.foldr_cons]
    rcases List.mem_cons.mp hn with h | h
    · subst h; omega
    · have := ih h
      rw [bestScore] at this
      omega

/-- The best score is bounded by any bound on all the scores. -/
lemma bestScore_le (scorer : Scorer) (query : String) (names : List String)
    (c : Nat) (hc : ∀ n ∈ names, scorer query n ≤ c) :
    bestScore scorer query names ≤ c := by
  induction names with
  | nil => exact Nat.zero_le c
  | cons m ms ih =>
    rw [bestScore]
    simp only [List.map_cons, List.foldr_cons]
    have h1 := hc m (List.mem_cons_self m ms)
    have h2 := ih (fun n hn => hc n (List.mem_cons_of_mem _ hn))
    rw [bestScore] at h2
    omega

/-- Round a rational to the nearest integer, ties to even, the rounding
IEEE 754 applies to an exact result expressed in units of the target
ulp. -/
def roundHalfEven (q : ℚ) : ℤ :=
  let f := ⌊q⌋
  let r := q - (f : ℚ)
  if r < 1 / 2 then f
  else if 1 / 2 < r then f + 1
  else if f % 2 = 0 then f else f + 1

/-- The binary64 double nearest to 1/100 (Python's float literal 0.01):
1/100 lies in the binade from 2 ^ (-7) to 2 ^ (-6), where the ulp is
2 ^ (-59), so the double is the nearest-even multiple of 2 ^ (-59). -/
def fp64Hundredth : ℚ := (roundHalfEven ((1 / 100 : ℚ) * 2 ^ 59) : ℚ) / 2 ^ 59

/-- The binary64 product of the doubles 1250000.0 and fp64Hundredth:
the exact product lies in the binade from 2 ^ 13 to 2 ^ 14, where the
ulp is 2 ^ (-39), so IEEE 754 multiplication returns the nearest-even
multiple of 2 ^ (-39). -/
def fp64TaxProduct : ℚ :=
  (roundHalfEven ((1250000 * fp64Hundredth) * 2 ^ 39) : ℚ) / 2 ^ 39

/-- The fixed phrase vocabulary of the written-amount converter
(src/app.py:99 and src/app.py:102). -/
def vocabulary : List (String × Nat) :=
  [("one million", 1000000), ("two hundred thousand", 200000)]

/-- Modelled from the spec of the converter, for comparison with the
code: lowercase the input, then sum the value of every vocabulary
phrase present; phrases outside the vocabulary contribute zero. -/
def additiveConvert (s : String) : Nat :=
  ((vocabulary.filter
      (fun p => hasSubstr p.1.data (strLower s).data)).map Prod.snd).sum

/-- Evaluation lemma for the dotless branch of the decimal parser. -/
lemma parseDecimal_nodot (cs ip : List Char)
    (hdig : cs.any (fun c => c.isDigit) = true)
    (hsplit : cs.splitOn '.' = [ip]) :
    parseDecimal cs = some ((digitsVal ip : ℚ)) := by
  unfold parseDecimal
  rw [hdig, hsplit]
  simp

/-- Evaluation lemma for the one-dot branch of the decimal parser. -/
lemma parseDecimal_onedot (cs ip fp : List Char)
    (hdig : cs.any (fun c => c.isDigit) = true)
    (hsplit : cs.splitOn '.' = [ip, fp]) :
    parseDecimal cs = some ((digitsVal ip : ℚ) + (digitsVal fp : ℚ) / 10 ^ fp.length) := by
  unfold parseDecimal
  rw [hdig, hsplit]
  simp

/-- Concrete evaluation: the sample numeric amount parses to 1,250,000. -/
lemma parse_numeric_sample : parse_numeric "$1,250,000.00" = some 1250000 := by
  have hstrip : stripNonNumeric "$1,250,000.00" = "1250000.00".data := by decide
  rw [parse_numeric, hstrip,
    parseDecimal_onedot "1250000.00".data "1250000".data "00".data (by decide) (by decide),
    show digitsVal "1250000".data = 1250000 from by decide,
    show digitsVal "00".data = 0 from by decide]
  norm_num

example : parseDateTime "2024-01-15" = some ⟨⟨2024, 1, 15⟩, 0, 0⟩ := by decide
example : parseDateTime "2024-01-15 10:00" = some ⟨⟨2024, 1, 15⟩, 10, 0⟩ := by decide
example : validate_dates "2024-01-15" "2024-01-10" =
    .error (.dateOrder ⟨2024, 1, 15⟩ ⟨2024, 1, 10⟩) := by rfl
example : validate_dates "2024-01-10" "2024-01-15" = .ok () := by rfl
example : text_amount_to_number "One Million Two Hundred Thousand Dollars" = 1200000 := by decide
example : validate_money "$1,250,000.00" "One Million Two Hundred Thousand Dollars" =
    .error (.moneyMismatch 1250000 1200000) := by
  rw [validate_money]
  rw [parse_numeric_sample,
    show text_amount_to_number "One Million Two Hundred Thousand Dollars" = 1200000 from by decide]
  norm_num

/-- Chars built from code points in the ASCII lowercase range keep
their code point. -/
lemma toNat_ofNat_ascii (n : Nat) (h1 : 97 ≤ n) (h2 : n ≤ 122) :
    (Char.ofNat n).toNat = n := by
  interval_cases n <;> rfl

/-- Lower-casing a character twice is the same as lower-casing once. -/
lemma lowerChar_idem (c : Char) : lowerChar (lowerChar c) = lowerChar c := by
  by_cases h : 65 ≤ c.toNat ∧ c.toNat ≤ 90
  · simp only [lowerChar]
    rw [if_pos h]
    have ht : (Char.ofNat (c.toNat + 32)).toNat = c.toNat + 32 :=
      toNat_ofNat_ascii (c.toNat + 32) (by omega) (by omega)
    rw [ht, if_neg (by omega)]
  · simp only [lowerChar]
    rw [if_neg h, if_neg h]

/-- Lower-casing a string twice is the same as lower-casing once. -/
lemma strLower_idem (s : String) : strLower (strLower s) = strLower s := by
  simp only [strLower, List.map_map]
  congr 1
  exact List.map_congr_left (fun c _ => lowerChar_idem c)

example : strLower "One Million" = "one million" := by decide

/-- C5: the written-amount converter is the limited-vocabulary additive
converter: it lowercases the input and returns the sum of the
contributions of exactly the vocabulary phrases found, where the
vocabulary is the phrase "one million" worth 1,000,000 and the phrase
"two hundred thousand" worth 200,000, every other phrase contributing
zero. -/
theorem text_amount_additive_spec (s : String) :
    text_amount_to_number s = additiveConvert s := by
  unfold text_amount_to_number additiveConvert vocabulary
  by_cases h1 : hasSubstr "one million".data (strLower s).data <;>
    by_cases h2 : hasSubstr "two hundred thousand".data (strLower s).data <;>
      simp only [h1, h2, List.filter_cons, List.filter_nil, if_pos, if_neg,
        Bool.false_eq_true, if_false, if_true, List.map_cons, List.map_nil,
        List.sum_cons, List.sum_nil] <;> rfl

/-- C10: the written-amount converter only ever returns one of the four
values 0, 200000, 1000000 and 1200000, and it is insensitive to the case
of its input: a string converts to the same value as its lowercase
form. -/
theorem text_amount_range_spec (s : String) :
    (text_amount_to_number s = 0 ∨ text_amount_to_number s = 200000 ∨
      text_amount_to_number s = 1000000 ∨ text_amount_to_number s = 1200000) ∧
    text_amount_to_number s = text_amount_to_number (strLower s) := by
  constructor
  · unfold text_amount_to_number
    by_cases h1 : hasSubstr "one million".data (strLower s).data <;>
      by_cases h2 : hasSubstr "two hundred thousand".data (strLower s).data <;>
        simp only [h1, h2, Bool.false_eq_true, if_false, if_true] <;> norm_num
  · unfold text_amount_to_number
    rw [strLower_idem]

/-- C2: given a numeric field that parses, the reconciler fails with a
money-mismatch error carrying the parsed numeric value and the converted
written value exactly when they differ by strictly more than one
currency unit; on the sample data it fails with the pair
(1250000, 1200000). -/
theorem validate_money_mismatch_spec :
    (∀ (a t : String) (v : ℚ), parse_numeric a = some v →
      (validate_money a t =
          .error (.moneyMismatch v (text_amount_to_number t)) ↔
        1 < |v - (text_amount_to_number t : ℚ)|)) ∧
    validate_money "$1,250,000.00" "One Million Two Hundred Thousand Dollars" =
      .error (.moneyMismatch 1250000 1200000) := by
  constructor
  · intro a t v hv
    have he : validate_money a t =
        if 1 < |v - (text_amount_to_number t : ℚ)| then
          .error (.moneyMismatch v (text_amount_to_number t))
        else .ok () := by
      unfold validate_money
      rw [hv]
    rw [he]
    by_cases h : 1 < |v - (text_amount_to_number t : ℚ)|
    · simp [h]
    · simp [h]
  · rw [validate_money, parse_numeric_sample,
      show text_amount_to_number "One Million Two Hundred Thousand Dollars" =
        1200000 from by decide]
    norm_num

/-- C2 witness: a numeric amount of two against an empty written amount
differs by more than the tolerance and raises the mismatch. -/
theorem validate_money_mismatch_spec_witness :
    validate_money "$2" "unpriced" =
      .error (.moneyMismatch 2 (text_amount_to_number "unpriced")) :=
  (validate_money_mismatch_spec.1 "$2" "unpriced" 2 (by decide)).mpr (by
    rw [show text_amount_to_number "unpriced" = 0 from by decide]
    norm_num)

/-- C7: the numeric field is read by stripping every character that is
not a digit or a dot and parsing what remains as a decimal number (so
parsing is invariant under re-stripping), and the reconciler fails with
the malformed-amount error when no digit remains after stripping. -/
theorem validate_money_malformed_spec :
    (∀ (a t : String),
      (stripNonNumeric a).any (fun c => c.isDigit) = false →
      validate_money a t = .error (.malformedAmount a)) ∧
    (∀ a : String,
      parse_numeric a = parse_numeric (String.mk (stripNonNumeric a))) := by
  constructor
  · intro a t h
    unfold validate_money parse_numeric parseDecimal
    rw [h]
    rfl
  · intro a
    unfold parse_numeric stripNonNumeric
    rw [show (String.mk (a.data.filter (fun c => c.isDigit || c = '.'))).data =
      a.data.filter (fun c => c.isDigit || c = '.') from rfl]
    rw [List.filter_filter]
    simp

/-- C7 witness: an amount field with no digits raises the
malformed-amount error. -/
theorem validate_money_malformed_spec_witness :
    validate_money "N/A" "one million" = .error (.malformedAmount "N/A") :=
  validate_money_malformed_spec.1 "N/A" "one million" (by decide)

/-- C4: the tax is the parsed numeric amount times the rate, a function
of the numeric amount field alone; on the sample amount at rate 1/100
the exact value is 12500, and the same holds with no drift in binary64:
the rate double is the nearest double to 1/100, it sits in the binade
where the ulp is 2 to the -59, the exact product of the doubles sits in
the binade of 12500 where the ulp is 2 to the -39, and rounding the
product to the nearest even multiple of that ulp gives exactly 12500. -/
theorem calculate_tax_spec :
    (∀ (a : String) (rate v : ℚ), parse_numeric a = some v →
      calculate_tax a rate = some (v * rate)) ∧
    (∀ (a b : String) (rate : ℚ), parse_numeric a = parse_numeric b →
      calculate_tax a rate = calculate_tax b rate) ∧
    calculate_tax "$1,250,000.00" (1 / 100) = some 12500 ∧
    fp64Hundredth = 5764607523034235 / 2 ^ 59 ∧
    ((1 : ℚ) / 2 ^ 7 ≤ fp64Hundredth ∧ fp64Hundredth < 1 / 2 ^ 6) ∧
    ((2 : ℚ) ^ 13 ≤ 1250000 * fp64Hundredth ∧
      1250000 * fp64Hundredth < 2 ^ 14) ∧
    fp64TaxProduct = 12500 := by
  refine ⟨?_, ?_, ?_, ?_, ?_, ?_, ?_⟩
  · intro a rate v hv
    unfold calculate_tax
    rw [hv]
    rfl
  · intro a b rate h
    unfold calculate_tax
    rw [h]
  · rw [calculate_tax, parse_numeric_sample]
    show some ((1250000 : ℚ) * (1 / 100)) = some 12500
    norm_num
  · norm_num [fp64Hundredth, roundHalfEven]
  · constructor <;> norm_num [fp64Hundredth, roundHalfEven]
  · constructor <;> norm_num [fp64Hundredth, roundHalfEven]
  · norm_num [fp64TaxProduct, fp64Hundredth, roundHalfEven]

/-- C4 witness: the multiplication clause at a concrete input. -/
theorem calculate_tax_spec_witness :
    calculate_tax "$31" 2 = some (31 * 2) :=
  calculate_tax_spec.1 "$31" 2 31 (by decide)

/-- C1 (amended): when both date strings parse, the validator succeeds
exactly when the recorded datetime, time of day included, is not
strictly before the signed datetime, and on violation it fails with the
date-order error carrying both calendar dates; the two sample inputs
fail and succeed as stated. -/
theorem validate_dates_order_spec :
    (∀ (s r : String) (sd rd : DateTime),
      parseDateTime s = some sd → parseDateTime r = some rd →
      ((validate_dates s r = .ok ()) ↔ DateTime.ltB rd sd = false) ∧
      (DateTime.ltB rd sd = true →
        validate_dates s r = .error (.dateOrder sd.date rd.date))) ∧
    validate_dates "2024-01-15" "2024-01-10" =
      .error (.dateOrder ⟨2024, 1, 15⟩ ⟨2024, 1, 10⟩) ∧
    validate_dates "2024-01-10" "2024-01-15" = .ok () := by
  refine ⟨?_, by rfl, by rfl⟩
  intro s r sd rd hs hr
  have he : validate_dates s r =
      if DateTime.ltB rd sd then .error (.dateOrder sd.date rd.date)
      else .ok () := by
    unfold validate_dates validate_dates_with
    rw [hs, hr]
  rw [he]
  cases h : DateTime.ltB rd sd <;> simp [h]

/-- C1 witness: a later recorded date passes the order check. -/
theorem validate_dates_order_spec_witness :
    validate_dates "2024-02-29" "2024-03-01" = .ok () :=
  ((validate_dates_order_spec.1 "2024-02-29" "2024-03-01"
    ⟨⟨2024, 2, 29⟩, 0, 0⟩ ⟨⟨2024, 3, 1⟩, 0, 0⟩ rfl rfl).1).mpr rfl

/-- C1 counterexample: both strings parse and the recorded calendar
date equals the signed calendar date, so a calendar-date-only comparison
succeeds, yet the validator fails with a date-order error because the
code compares the full datetimes, time of day included. -/
theorem validate_dates_ignores_time_ce :
    parseDateTime "2024-01-15 10:00" = some ⟨⟨2024, 1, 15⟩, 10, 0⟩ ∧
    parseDateTime "2024-01-15 09:00" = some ⟨⟨2024, 1, 15⟩, 9, 0⟩ ∧
    Date.ltB ⟨2024, 1, 15⟩ ⟨2024, 1, 15⟩ = false ∧
    validate_dates "2024-01-15 10:00" "2024-01-15 09:00" =
      .error (.dateOrder ⟨2024, 1, 15⟩ ⟨2024, 1, 15⟩) :=
  ⟨rfl, rfl, rfl, rfl⟩

/-- Digit character of a value below ten. -/
def digitChar10 (n : Nat) : Char := Char.ofNat (48 + n)

/-- The zero-padded ISO rendering of a calendar date, the string
YYYY-MM-DD. -/
def isoString (y m d : Nat) : String :=
  String.mk [digitChar10 (y / 1000), digitChar10 (y / 100 % 10),
    digitChar10 (y / 10 % 10), digitChar10 (y % 10), '-',
    digitChar10 (m / 10), digitChar10 (m % 10), '-',
    digitChar10 (d / 10), digitChar10 (d % 10)]

/-- Digit characters built from values below ten are digits with that
value. -/
lemma digitChar10_spec (n : Nat) (h : n < 10) :
    (digitChar10 n).isDigit = true ∧ digitVal (digitChar10 n) = n := by
  interval_cases n <;> exact ⟨rfl, rfl⟩

/-- The date parser on any ten-character string with dashes in ISO
position reduces to the date-component parser. -/
lemma parseDateTime_iso (y1 y2 y3 y4 m1 m2 d1 d2 : Char) :
    parseDateTime (String.mk [y1, y2, y3, y4, '-', m1, m2, '-', d1, d2]) =
      (parseYMD y1 y2 y3 y4 m1 m2 d1 d2).map (fun d => ⟨d, 0, 0⟩) := by
  rfl

/-- No month of any year has more than 31 days. -/
lemma daysInMonth_le (y m : Nat) : daysInMonth y m ≤ 31 := by
  unfold daysInMonth
  split
  · split <;> omega
  · split <;> omega

/-- The component parser recovers the rendered digits of a valid date. -/
lemma parseYMD_digits (y m d : Nat) (hy1 : 1 ≤ y) (hy : y ≤ 9999)
    (hm1 : 1 ≤ m) (hm : m ≤ 12) (hd1 : 1 ≤ d) (hd : d ≤ daysInMonth y m) :
    parseYMD (digitChar10 (y / 1000)) (digitChar10 (y / 100 % 10))
      (digitChar10 (y / 10 % 10)) (digitChar10 (y % 10))
      (digitChar10 (m / 10)) (digitChar10 (m % 10))
      (digitChar10 (d / 10)) (digitChar10 (d % 10)) = some ⟨y, m, d⟩ := by
  have hd31 : d ≤ 31 := le_trans hd (daysInMonth_le y m)
  have h1 := digitChar10_spec (y / 1000) (by omega)
  have h2 := digitChar10_spec (y / 100 % 10) (by omega)
  have h3 := digitChar10_spec (y / 10 % 10) (by omega)
  have h4 := digitChar10_spec (y % 10) (by omega)
  have h5 := digitChar10_spec (m / 10) (by omega)
  have h6 := digitChar10_spec (m % 10) (by omega)
  have h7 := digitChar10_spec (d / 10) (by omega)
  have h8 := digitChar10_spec (d % 10) (by omega)
  unfold parseYMD
  rw [h1.1, h2.1, h3.1, h4.1, h5.1, h6.1, h7.1, h8.1,
    h1.2, h2.2, h3.2, h4.2, h5.2, h6.2, h7.2, h8.2]
  simp only [Bool.and_self, if_true]
  rw [show ((y / 1000 * 10 + y / 100 % 10) * 10 + y / 10 % 10) * 10 + y % 10 = y
      from by omega,
    show m / 10 * 10 + m % 10 = m from by omega,
    show d / 10 * 10 + d % 10 = d from by omega]
  simp [hy1, hm1, hm, hd1, hd]

/-- C8: whatever parser the validator calls, it fails with the
date-parse error whenever that parser fails on either input — so in the
program a dateutil `ParserError` on either field surfaces as the
date-parse failure — and every zero-padded ISO rendering of a valid
calendar date parses (to that date at midnight), so ISO inputs never
take the parse-error path. -/
theorem validate_dates_parse_spec :
    (∀ (parse : String → Option DateTime) (s r : String),
      parse s = none ∨ parse r = none →
      validate_dates_with parse s r = .error .dateParse) ∧
    (∀ y m d : Nat, 1 ≤ y → y ≤ 9999 → 1 ≤ m → m ≤ 12 → 1 ≤ d →
      d ≤ daysInMonth y m →
      parseDateTime (isoString y m d) = some ⟨⟨y, m, d⟩, 0, 0⟩) := by
  constructor
  · intro parse s r h
    unfold validate_dates_with
    rcases h with h | h
    · rw [h]
    · rw [h]
      cases parse s <;> rfl
  · intro y m d hy1 hy hm1 hm hd1 hd
    rw [isoString, parseDateTime_iso,
      parseYMD_digits y m d hy1 hy hm1 hm hd1 hd]
    rfl

/-- C8 witness: a recorded-date field holding only asterisks — a string
dateutil rejects with a ParserError, having no date token — raises the
parse error in the concrete validator, and the ISO rendering of
2026-02-28 parses. -/
theorem validate_dates_parse_spec_witness :
    validate_dates "2024-01-15" "***" = .error .dateParse ∧
    parseDateTime (isoString 2026 2 28) = some ⟨⟨2026, 2, 28⟩, 0, 0⟩ :=
  ⟨validate_dates_parse_spec.1 parseDateTime "2024-01-15" "***"
      (Or.inr rfl),
    validate_dates_parse_spec.2 2026 2 28 (by decide) (by decide) (by decide)
      (by decide) (by decide) (by decide)⟩

/-- The name list of a non-empty registry is a non-empty list. -/
lemma exists_cons_of_map_name (counties : List CountyRecord)
    (h : counties ≠ []) :
    ∃ n ns, counties.map CountyRecord.name = n :: ns := by
  cases counties with
  | nil => exact absurd rfl h
  | cons c cs => exact ⟨c.name, cs.map CountyRecord.name, rfl⟩

/-- C3 (amended): over a non-empty registry, the resolver fails with the
unknown-county error exactly when the best similarity score over the
registry names is below 70, and any name it returns is present verbatim
among the registry names. -/
theorem normalize_county_threshold_spec
    (scorer : Scorer) (input : String) (counties : List CountyRecord)
    (hne : counties ≠ []) :
    ((normalize_county scorer input counties =
        .error (.unknownCounty input)) ↔
      bestScore scorer input (counties.map CountyRecord.name) < 70) ∧
    (∀ nm, normalize_county scorer input counties = .ok nm →
      nm ∈ counties.map CountyRecord.name) := by
  obtain ⟨n, ns, hmap⟩ := exists_cons_of_map_name counties hne
  obtain ⟨bm, hex, hmem, hsc⟩ := extractOne_spec scorer input n ns
  have hnc : normalize_county scorer input counties =
      if bestScore scorer input (n :: ns) < 70 then
        .error (.unknownCounty input)
      else .ok bm := by
    unfold normalize_county
    rw [hmap, hex]
  rw [hmap]
  constructor
  · rw [hnc]
    by_cases h : bestScore scorer input (n :: ns) < 70 <;> simp [h]
  · intro nm hnm
    rw [hnc] at hnm
    by_cases h : bestScore scorer input (n :: ns) < 70
    · rw [if_pos h] at hnm
      exact Except.noConfusion hnm
    · rw [if_neg h] at hnm
      exact Except.ok.inj hnm ▸ hmem

/-- C3 witness: a below-threshold scorer over a singleton registry hits
the unknown-county branch. -/
theorem normalize_county_threshold_spec_witness :
    normalize_county (fun _ _ => 42) "S. Clara" [⟨"Santa Clara", 1 / 100⟩] =
      .error (.unknownCounty "S. Clara") :=
  (normalize_county_threshold_spec (fun _ _ => 42) "S. Clara"
    [⟨"Santa Clara", 1 / 100⟩] (by simp)).1.mpr (by decide)

/-- C3 counterexample: on the empty registry the best score over the
(empty) name list is below 70, yet the resolver does not fail with the
unknown-county error; it fails with the modelled TypeError instead. -/
theorem normalize_county_empty_registry_ce :
    bestScore (fun _ _ => 0) "Santa Clara"
        (([] : List CountyRecord).map CountyRecord.name) < 70 ∧
    normalize_county (fun _ _ => 0) "Santa Clara" [] ≠
      .error (.unknownCounty "Santa Clara") ∧
    normalize_county (fun _ _ => 0) "Santa Clara" [] =
      .error .pythonTypeMismatch := by
  refine ⟨by decide, ?_, rfl⟩
  intro h
  rw [show normalize_county (fun _ _ => 0) "Santa Clara" [] =
    Except.error DeedError.pythonTypeMismatch from rfl] at h
  exact DeedError.noConfusion (Except.error.inj h)

/-- C6: for a scorer that gives identical strings the perfect score,
never exceeds 100, and gives 100 only to identical strings (as the
rapidfuzz WRatio scorer behaves, since its token-based variants are
scaled below 100 and its indel ratio is 100 only on equal strings),
resolving a name present verbatim in the registry never fails: the best
match is that name itself with the perfect score 100. -/
theorem normalize_county_exact_spec
    (scorer : Scorer) (counties : List CountyRecord) (name : String)
    (hrefl : ∀ t, scorer t t = 100)
    (hbound : ∀ a b, scorer a b ≤ 100)
    (hsep : ∀ a b, scorer a b = 100 → a = b)
    (hmem : name ∈ counties.map CountyRecord.name) :
    extractOne scorer name (counties.map CountyRecord.name) =
      some (name, 100) ∧
    normalize_county scorer name counties = .ok name := by
  obtain ⟨n, ns, hmap⟩ := exists_cons_of_map_name counties
    (by rintro rfl; simp at hmem)
  rw [hmap] at hmem
  obtain ⟨bm, hex, hbmem, hsc⟩ := extractOne_spec scorer name n ns
  have hb100 : bestScore scorer name (n :: ns) = 100 := by
    have hle : bestScore scorer name (n :: ns) ≤ 100 :=
      bestScore_le _ _ _ _ (fun mm _ => hbound name mm)
    have hge := le_bestScore scorer name (n :: ns) name hmem
    rw [hrefl name] at hge
    omega
  have hbmn : bm = name := (hsep name bm (by rw [hsc, hb100])).symm
  constructor
  · rw [hmap, hex, hb100, hbmn]
  · unfold normalize_county
    rw [hmap, hex]
    rw [hb100, hbmn]
    rfl

/-- The equality scorer: 100 on identical strings, 0 otherwise. -/
def eqScorer : Scorer := fun a b => if a = b then 100 else 0

/-- C6 witness: the exact canonical name resolves to itself over a
two-county registry. -/
theorem normalize_county_exact_spec_witness :
    normalize_county eqScorer "Santa Clara"
      [⟨"Alameda", 3 / 200⟩, ⟨"Santa Clara", 1 / 100⟩] = .ok "Santa Clara" :=
  (normalize_county_exact_spec eqScorer
    [⟨"Alameda", 3 / 200⟩, ⟨"Santa Clara", 1 / 100⟩] "Santa Clara"
    (fun t => by simp [eqScorer])
    (fun a b => by unfold eqScorer; split <;> omega)
    (fun a b h => by
      by_cases hab : a = b
      · exact hab
      · unfold eqScorer at h
        rw [if_neg hab] at h
        exact absurd h (by norm_num))
    (by simp)).2

/-- C9: a non-empty registry is a precondition of the resolver's stated
contract: over a non-empty registry the resolver either returns a
registry name or fails with the unknown-county error, while over the
empty registry it fails differently, with the modelled TypeError, never
the unknown-county error. -/
theorem normalize_county_registry_spec
    (scorer : Scorer) (input : String) (counties : List CountyRecord) :
    (counties ≠ [] →
      (∃ nm ∈ counties.map CountyRecord.name,
        normalize_county scorer input counties = .ok nm) ∨
      normalize_county scorer input counties =
        .error (.unknownCounty input)) ∧
    (counties = [] →
      normalize_county scorer input counties = .error .pythonTypeMismatch ∧
      DeedError.pythonTypeMismatch ≠ .unknownCounty input) := by
  constructor
  · intro hne
    obtain ⟨n, ns, hmap⟩ := exists_cons_of_map_name counties hne
    obtain ⟨bm, hex, hmem, hsc⟩ := extractOne_spec scorer input n ns
    have hnc : normalize_county scorer input counties =
        if bestScore scorer input (n :: ns) < 70 then
          .error (.unknownCounty input)
        else .ok bm := by
      unfold normalize_county
      rw [hmap, hex]
    by_cases h : bestScore scorer input (n :: ns) < 70
    · right
      rw [hnc, if_pos h]
    · left
      exact ⟨bm, hmap ▸ hmem, by rw [hnc, if_neg h]⟩
  · rintro rfl
    exact ⟨rfl, fun h => DeedError.noConfusion h⟩

/-- C9 witness: the two branches at concrete registries. -/
theorem normalize_county_registry_spec_witness :
    normalize_county eqScorer "anything" [] = .error .pythonTypeMismatch ∧
    ((∃ nm ∈ ([⟨"Kern", 1 / 100⟩] : List CountyRecord).map CountyRecord.name,
        normalize_county eqScorer "anything" [⟨"Kern", 1 / 100⟩] = .ok nm) ∨
      normalize_county eqScorer "anything" [⟨"Kern", 1 / 100⟩] =
        .error (.unknownCounty "anything")) :=
  ⟨((normalize_county_registry_spec eqScorer "anything" []).2 rfl).1,
    (normalize_county_registry_spec eqScorer "anything"
      [⟨"Kern", 1 / 100⟩]).1 (by simp)⟩
